import Mathlib

/-!
Verification of the historical-data dashboard components
(`HistoricalDataSection.tsx`, `TemperatureChart.tsx`, `GaugeChart`).

Numbers carried by telemetry samples are modelled as rationals (`ℚ`);
timestamps are strings, as in the source. Browser and library effects
(socket emission, HTTP fetch, localStorage, page reload, file download)
are modelled as explicit data returned by the embedded functions.
-/

namespace H4

/-- Telemetry sample: `{timestamp: string, value: number}` (the `DataPoint`
interface of `TemperatureChart.tsx`). -/
structure DataPoint where
  timestamp : String
  value : ℚ
deriving DecidableEq, Repr

/-- One `{noc: [], ups: []}` group of the historical bundle. -/
structure SeriesPair where
  noc : List DataPoint
  ups : List DataPoint
deriving DecidableEq, Repr

/-- Historical bundle:
`{temperature: {noc, ups}, humidity: {noc, ups}, electrical: []}`. -/
structure HistoricalBundle where
  temperature : SeriesPair
  humidity : SeriesPair
  electrical : List DataPoint
deriving DecidableEq, Repr

/-- The component state of `HistoricalDataSection` that the claims are
about: the `useState` cells `timeRange`, `activeTab`, `exportLoading`,
`historicalData` and `lastUpdate` (an abstract instant). -/
structure SectionState where
  timeRange : String
  activeTab : Nat
  exportLoading : Bool
  historicalData : HistoricalBundle
  lastUpdate : Nat
deriving DecidableEq, Repr

/-- Initial state of the component (`HistoricalDataSection.tsx` lines
40-46): `timeRange` starts as `'realtime'`, `activeTab` as `0`,
`exportLoading` as `false`, `historicalData` as the `data.historical`
prop, `lastUpdate` as the current time. -/
def initialState (historical : HistoricalBundle) (now : Nat) : SectionState :=
  { timeRange := "realtime"
    activeTab := 0
    exportLoading := false
    historicalData := historical
    lastUpdate := now }

/-- An empty historical bundle, used as a concrete test fixture. -/
def emptyBundle : HistoricalBundle :=
  { temperature := { noc := [], ups := [] }
    humidity := { noc := [], ups := [] }
    electrical := [] }

/-- A socket emission performed by the component. -/
inductive SocketEmit where
  | requestHistoricalData (timeRange : String)
deriving DecidableEq, Repr

/-- The interval (in milliseconds) passed to `setInterval` in the
`useEffect` of `HistoricalDataSection.tsx` (lines 61-66):
`timeRange === 'realtime' ? 30000 : timeRange === '24h' ? 60000 :
timeRange === '7d' ? 300000 : 600000`. -/
def pollIntervalMs (timeRange : String) : Nat :=
  if timeRange = "realtime" then 30000
  else if timeRange = "24h" then 60000
  else if timeRange = "7d" then 300000
  else 600000

/-- The polling timer set up by the `useEffect`: its period and what each
tick emits (`socket.emit('request_historical_data', { timeRange })`). -/
structure PollTimer where
  intervalMs : Nat
  onTick : List SocketEmit
deriving DecidableEq, Repr

/-- The timer installed for a given time range (lines 61-66). -/
def setupPolling (timeRange : String) : PollTimer :=
  { intervalMs := pollIntervalMs timeRange
    onTick := [SocketEmit.requestHistoricalData timeRange] }

/-- The `'historical_data_update'` socket handler (lines 55-58):
`setHistoricalData(newData); setLastUpdate(new Date())`. -/
def onHistoricalDataUpdate (s : SectionState) (newData : HistoricalBundle)
    (now : Nat) : SectionState :=
  { s with historicalData := newData, lastUpdate := now }

/-- The `handleTimeRangeChange` callback (lines 74-82): a `null` value is
ignored; any other value is stored as the new time range and a
`request_historical_data` emission is made with it. -/
def handleTimeRangeChange (newTimeRange : Option String) (s : SectionState) :
    SectionState × List SocketEmit :=
  match newTimeRange with
  | none => (s, [])
  | some v => ({ s with timeRange := v }, [SocketEmit.requestHistoricalData v])

/-- The values offered by the `ToggleButtonGroup` (lines 339-351):
`realtime`, `24h`, `7d`, `30d`. -/
def toggleButtonValues : List String := ["realtime", "24h", "7d", "30d"]

/-- The enumerated time-range set named by the specification. -/
def timeRangeEnum : List String := ["realtime", "1h", "24h", "7d", "30d"]

/-- C1: the interval passed to the polling timer that re-emits
`request_historical_data` is 30000 ms for `realtime`, 60000 ms for `24h`,
300000 ms for `7d`, and 600000 ms for every other range value. -/
theorem polling_cadence :
    (setupPolling "realtime").intervalMs = 30000 ∧
    (setupPolling "24h").intervalMs = 60000 ∧
    (setupPolling "7d").intervalMs = 300000 ∧
    (setupPolling "30d").intervalMs = 600000 ∧
    (∀ tr : String, tr ≠ "realtime" → tr ≠ "24h" → tr ≠ "7d" →
      (setupPolling tr).intervalMs = 600000) ∧
    (∀ tr : String, (setupPolling tr).onTick =
      [SocketEmit.requestHistoricalData tr]) := by
  refine ⟨rfl, rfl, rfl, rfl, ?_, fun tr => rfl⟩
  intro tr h1 h2 h3
  simp [setupPolling, pollIntervalMs, h1, h2, h3]

/-- Witness for C1: the catch-all branch at the concrete range `'1h'`. -/
theorem polling_cadence_witness :
    (setupPolling "1h").intervalMs = 600000 :=
  polling_cadence.2.2.2.2.1 "1h" (by decide) (by decide) (by decide)

/-- C2: the `'historical_data_update'` handler replaces the stored bundle
wholesale with the received payload — for every previous state the new
`historicalData` equals the incoming bundle exactly (hence is independent
of the previous bundle), `lastUpdate` becomes the current time, and no
other state cell changes. -/
theorem historical_update_replaces_wholesale
    (s : SectionState) (newData : HistoricalBundle) (now : Nat) :
    (onHistoricalDataUpdate s newData now).historicalData = newData ∧
    (onHistoricalDataUpdate s newData now).lastUpdate = now ∧
    (onHistoricalDataUpdate s newData now).timeRange = s.timeRange ∧
    (onHistoricalDataUpdate s newData now).activeTab = s.activeTab ∧
    (onHistoricalDataUpdate s newData now).exportLoading = s.exportLoading :=
  ⟨rfl, rfl, rfl, rfl, rfl⟩

/-- One entry of the chart-ready merged temperature series. -/
structure MergedPoint where
  timestamp : String
  nocTemperature : ℚ
  upsTemperature : Option ℚ
deriving DecidableEq, Repr

/-- The value `upsData[index]?.value || null` of `TemperatureChart.tsx`
line 31: `null` when the index is out of range, and the JavaScript `||`
also coalesces a falsy value (here `0`) to `null`. -/
def upsValueAt (upsData : List DataPoint) (index : Nat) : Option ℚ :=
  match upsData.get? index with
  | none => none
  | some p => if p.value = 0 then none else some p.value

/-- `mergedData` of `TemperatureChart.tsx` (lines 28-32):
`nocData.map((item, index) => ({timestamp: item.timestamp,
nocTemperature: item.value, upsTemperature: upsData[index]?.value || null}))`. -/
def mergedData (nocData upsData : List DataPoint) : List MergedPoint :=
  nocData.mapIdx fun index item =>
    { timestamp := item.timestamp
      nocTemperature := item.value
      upsTemperature := upsValueAt upsData index }

/-- A calendar date-time, the result of parsing an ISO timestamp. -/
structure DateTimeVal where
  year : Nat
  month : Nat
  day : Nat
  hour : Nat
  minute : Nat
deriving DecidableEq, Repr

/-- Value of a decimal digit character. -/
def digitVal (c : Char) : Option Nat :=
  if c.isDigit then some (c.toNat - 48) else none

/-- Two decimal digit characters as a number. -/
def twoDigits (a b : Char) : Option Nat := do
  let x ← digitVal a
  let y ← digitVal b
  pure (10 * x + y)

/-- Model of the date-fns `parseISO` library call (composed with the
`format` call that throws on an invalid date): accepts
`YYYY-MM-DD` optionally followed by `THH:MM` and more, with in-range
fields, and fails on everything else. -/
def parseISO (s : String) : Option DateTimeVal :=
  match s.toList with
  | y1 :: y2 :: y3 :: y4 :: '-' :: m1 :: m2 :: '-' :: d1 :: d2 :: rest => do
    let yh ← twoDigits y1 y2
    let yl ← twoDigits y3 y4
    let mo ← twoDigits m1 m2
    let dy ← twoDigits d1 d2
    if 1 ≤ mo ∧ mo ≤ 12 ∧ 1 ≤ dy ∧ dy ≤ 31 then
      match rest with
      | [] => some ⟨100 * yh + yl, mo, dy, 0, 0⟩
      | 'T' :: h1 :: h2 :: ':' :: n1 :: n2 :: _ => do
        let hr ← twoDigits h1 h2
        let mi ← twoDigits n1 n2
        if hr ≤ 23 ∧ mi ≤ 59 then some ⟨100 * yh + yl, mo, dy, hr, mi⟩
        else none
      | _ => none
    else none
  | _ => none

/-- A number rendered as two digits, zero-padded. -/
def pad2 (n : Nat) : String :=
  if n < 10 then "0" ++ toString n else toString n

/-- The date-fns `format(date, 'HH:mm')` rendering. -/
def renderHHmm (d : DateTimeVal) : String :=
  pad2 d.hour ++ ":" ++ pad2 d.minute

/-- The date-fns `format(date, 'dd/MM')` rendering. -/
def renderDDMM (d : DateTimeVal) : String :=
  pad2 d.day ++ "/" ++ pad2 d.month

/-- `formatXAxis` of `TemperatureChart.tsx` (lines 35-48): parse the tick
as an ISO date; render `'HH:mm'` when the range is `'24h'`, `'dd/MM'`
when it is `'7d'`, `'dd/MM'` otherwise; return `''` when parsing (or
formatting) throws. -/
def formatXAxis (timeRange : String) (tickItem : String) : String :=
  match parseISO tickItem with
  | none => ""
  | some date =>
    if timeRange = "24h" then renderHHmm date
    else if timeRange = "7d" then renderDDMM date
    else renderDDMM date

/-- C5 (counterexample): the claim says the merged entry takes its
`upsTemperature` from `upsData[i]` whenever that index exists; but at a
UPS sample of value `0` the code yields `null`, not `0`. -/
theorem merged_pairing_counterexample :
    ([⟨"2024-01-01T00:00:00", 0⟩] : List DataPoint).get? 0 =
      some ⟨"2024-01-01T00:00:00", 0⟩ ∧
    mergedData [⟨"2024-01-01T00:00:00", 25⟩] [⟨"2024-01-01T00:00:00", 0⟩] =
      [⟨"2024-01-01T00:00:00", 25, none⟩] ∧
    (none : Option ℚ) ≠ some 0 := by
  refine ⟨rfl, ?_, by decide⟩
  rfl

/-- C5 (amended): the merged temperature series has exactly one entry per
NOC sample; entry `i` takes its timestamp and `nocTemperature` from
`nocData[i]` and its `upsTemperature` from `upsData[i]` when that index
exists and holds a nonzero value, and `null` when the index does not
exist or the value there is `0`. -/
theorem merged_pairs_by_index (noc ups : List DataPoint) :
    (mergedData noc ups).length = noc.length ∧
    ∀ (i : Nat) (h : i < (mergedData noc ups).length) (h2 : i < noc.length),
      ((mergedData noc ups).get ⟨i, h⟩).timestamp = (noc.get ⟨i, h2⟩).timestamp ∧
      ((mergedData noc ups).get ⟨i, h⟩).nocTemperature = (noc.get ⟨i, h2⟩).value ∧
      (ups.get? i = none → ((mergedData noc ups).get ⟨i, h⟩).upsTemperature = none) ∧
      (∀ p, ups.get? i = some p → p.value = 0 →
        ((mergedData noc ups).get ⟨i, h⟩).upsTemperature = none) ∧
      (∀ p, ups.get? i = some p → p.value ≠ 0 →
        ((mergedData noc ups).get ⟨i, h⟩).upsTemperature = some p.value) := by
  refine ⟨List.length_mapIdx, ?_⟩
  intro i h h2
  have hget := List.get_mapIdx noc
    (fun index item => MergedPoint.mk item.timestamp item.value (upsValueAt ups index))
    i h2 h
  have heq : (mergedData noc ups).get ⟨i, h⟩ =
      MergedPoint.mk (noc.get ⟨i, h2⟩).timestamp (noc.get ⟨i, h2⟩).value
        (upsValueAt ups i) := hget
  rw [heq]
  refine ⟨rfl, rfl, ?_, ?_, ?_⟩
  · intro hnone
    rw [List.get?_eq_getElem?] at hnone
    simp [upsValueAt, hnone]
  · intro p hp hz
    rw [List.get?_eq_getElem?] at hp
    simp [upsValueAt, hp, hz]
  · intro p hp hz
    rw [List.get?_eq_getElem?] at hp
    simp [upsValueAt, hp, hz]

/-- Witness for C5 (amended) at a concrete pair of arrays: two NOC
samples against one UPS sample. -/
theorem merged_pairs_by_index_witness :
    (mergedData [⟨"a", 20⟩, ⟨"b", 21⟩] [⟨"a", 18⟩]).length = 2 ∧
    ((mergedData [⟨"a", 20⟩, ⟨"b", 21⟩] [⟨"a", 18⟩]).get
      ⟨0, by decide⟩).upsTemperature = some 18 ∧
    ((mergedData [⟨"a", 20⟩, ⟨"b", 21⟩] [⟨"a", 18⟩]).get
      ⟨1, by decide⟩).upsTemperature = none := by
  refine ⟨(merged_pairs_by_index [⟨"a", 20⟩, ⟨"b", 21⟩] [⟨"a", 18⟩]).1, ?_, ?_⟩
  · exact ((merged_pairs_by_index [⟨"a", 20⟩, ⟨"b", 21⟩] [⟨"a", 18⟩]).2
      0 (by decide) (by decide)).2.2.2.2 ⟨"a", 18⟩ rfl (by decide)
  · exact ((merged_pairs_by_index [⟨"a", 20⟩, ⟨"b", 21⟩] [⟨"a", 18⟩]).2
      1 (by decide) (by decide)).2.2.1 rfl

/-- C8: a UPS sample whose value is exactly `0` is indistinguishable from
a missing UPS sample — whenever `upsData[i]` is out of range or holds
value `0`, the merged entry's `upsTemperature` is `null`. -/
theorem ups_zero_coalesced_to_null (noc ups : List DataPoint) (i : Nat)
    (h : i < (mergedData noc ups).length)
    (hz : ups.get? i = none ∨ ∃ p, ups.get? i = some p ∧ p.value = 0) :
    ((mergedData noc ups).get ⟨i, h⟩).upsTemperature = none := by
  have h2 : i < noc.length := by
    have := (merged_pairs_by_index noc ups).1
    omega
  rcases hz with hnone | ⟨p, hp, hzero⟩
  · exact ((merged_pairs_by_index noc ups).2 i h h2).2.2.1 hnone
  · exact ((merged_pairs_by_index noc ups).2 i h h2).2.2.2.1 p hp hzero

/-- Witness for C8: a concrete UPS sample of value `0` yields `null`. -/
theorem ups_zero_coalesced_to_null_witness :
    ((mergedData [⟨"a", 25⟩] [⟨"a", 0⟩]).get ⟨0, by decide⟩).upsTemperature
      = none :=
  ups_zero_coalesced_to_null [⟨"a", 25⟩] [⟨"a", 0⟩] 0 (by decide)
    (Or.inr ⟨⟨"a", 0⟩, rfl, by decide⟩)

/-- C7: `formatXAxis` renders a parseable tick as `'HH:mm'` when the
range is `'24h'` and as `'dd/MM'` for every other range, and returns the
empty string (never throwing) when the tick fails to parse. -/
theorem axis_formatting_by_range (timeRange tickItem : String) :
    (parseISO tickItem = none → formatXAxis timeRange tickItem = "") ∧
    (∀ d, parseISO tickItem = some d →
      (timeRange = "24h" → formatXAxis timeRange tickItem = renderHHmm d) ∧
      (timeRange ≠ "24h" → formatXAxis timeRange tickItem = renderDDMM d)) := by
  constructor
  · intro hnone
    simp [formatXAxis, hnone]
  · intro d hd
    constructor
    · intro h24
      simp [formatXAxis, hd, h24]
    · intro h24
      by_cases h7 : timeRange = "7d" <;> simp [formatXAxis, hd, h24, h7]

/-- Witness for C7: concrete renderings in each branch and a tick that
fails to parse. -/
theorem axis_formatting_by_range_witness :
    formatXAxis "24h" "2024-05-03T14:30:00" = "14:30" ∧
    formatXAxis "30d" "2024-05-03T14:30:00" = "03/05" ∧
    formatXAxis "24h" "not-a-date" = "" := by
  refine ⟨?_, ?_, ?_⟩
  · exact (((axis_formatting_by_range "24h" "2024-05-03T14:30:00").2
      ⟨2024, 5, 3, 14, 30⟩ (by decide)).1 rfl).trans (by decide)
  · exact (((axis_formatting_by_range "30d" "2024-05-03T14:30:00").2
      ⟨2024, 5, 3, 14, 30⟩ (by decide)).2 (by decide)).trans (by decide)
  · exact (axis_formatting_by_range "24h" "not-a-date").1 (by decide)

/-- `localStorage.getItem`: the value stored under a key, if any. -/
def getItem (store : List (String × String)) (key : String) : Option String :=
  (store.find? fun p => p.1 == key).map fun p => p.2

/-- `localStorage.removeItem`: drop every entry under a key. -/
def removeItem (store : List (String × String)) (key : String) :
    List (String × String) :=
  store.filter fun p => p.1 != key

/-- An HTTP response as `exportData` observes it: `ok`, `status`,
`statusText`. -/
structure HttpResponse where
  ok : Bool
  status : Nat
  statusText : String
deriving DecidableEq, Repr

/-- An HTTP request as `exportData` issues it (lines 123-130). -/
structure HttpRequest where
  method : String
  requestUrl : String
  headers : List (String × String)
deriving DecidableEq, Repr

/-- How one run of `exportData` terminates: a completed file download, or
a raised `Error` (whose message is then alerted) — the `finally` block
runs either way. -/
inductive ExportOutcome where
  | downloaded (fileName : String)
  | failed (message : String)
deriving DecidableEq, Repr

/-- Everything observable about one run of `exportData`: the final
component state, the HTTP requests made, the localStorage contents
afterwards, whether `window.location.reload()` ran, and the outcome. -/
structure ExportResult where
  state : SectionState
  requests : List HttpRequest
  store : List (String × String)
  reloaded : Bool
  outcome : ExportOutcome
deriving DecidableEq, Repr

/-- The `switch (activeTab)` of `exportData` (lines 104-116): the export
endpoint for each tab, `none` for the `default` branch that throws
`'Invalid tab selection'`. -/
def endpointForTab (activeTab : Nat) : Option String :=
  match activeTab with
  | 0 => some "temperature"
  | 1 => some "humidity"
  | 2 => some "electrical"
  | _ => none

/-- `exportData` of `HistoricalDataSection.tsx` (lines 96-160), one run,
given the localStorage contents, the response the single possible fetch
would get, and the `'yyyyMMdd_HHmmss'` rendering of the current time.
`setExportLoading(true)` runs first and the `finally` block always runs
`setExportLoading(false)`, so every branch returns the state with
`exportLoading := false`. The token check `if (!token)` treats both a
missing entry and an empty string (falsy) as absent. A thrown `Error`
message ends up as the `failed` outcome (the catch block alerts it). -/
def exportData (baseUrl : String) (store : List (String × String))
    (response : HttpResponse) (timestamp : String) (s : SectionState) :
    ExportResult :=
  let sDone := { s with exportLoading := false }
  match endpointForTab s.activeTab with
  | none =>
    { state := sDone, requests := [], store := store, reloaded := false
      outcome := ExportOutcome.failed "Invalid tab selection" }
  | some endpoint =>
    match getItem store "authToken" with
    | none =>
      { state := sDone, requests := [], store := store, reloaded := false
        outcome := ExportOutcome.failed "Authentication token not found" }
    | some token =>
      if token = "" then
        { state := sDone, requests := [], store := store, reloaded := false
          outcome := ExportOutcome.failed "Authentication token not found" }
      else
        let req : HttpRequest :=
          { method := "GET"
            requestUrl := baseUrl ++ "/api/export/" ++ endpoint ++
              "?timeRange=" ++ s.timeRange
            headers := [("Authorization", "Bearer " ++ token),
                        ("Cache-Control", "no-cache"),
                        ("Accept", "text/csv")] }
        if response.ok then
          { state := sDone, requests := [req], store := store, reloaded := false
            outcome := ExportOutcome.downloaded
              (endpoint ++ "_data_" ++ s.timeRange ++ "_" ++ timestamp ++ ".csv") }
        else if response.status = 401 then
          { state := sDone, requests := [req]
            store := removeItem store "authToken", reloaded := true
            outcome := ExportOutcome.failed "Session expired. Please log in again." }
        else
          { state := sDone, requests := [req], store := store, reloaded := false
            outcome := ExportOutcome.failed
              ("Export failed: " ++ response.statusText) }

/-- C4 (counterexample): the change handler applies no membership
validation — the value `'bogus'`, which is outside the enumerated set, is
accepted and stored as the new time range. -/
theorem time_range_validation_counterexample :
    (handleTimeRangeChange (some "bogus") (initialState emptyBundle 0)).1.timeRange
      = "bogus" ∧
    "bogus" ∉ timeRangeEnum := by
  exact ⟨rfl, by decide⟩

/-- C4 (amended): every value offered by the time-range toggle buttons is
in the enumerated set `{realtime, 1h, 24h, 7d, 30d}`, but the change
handler itself validates only non-nullness: `null` is rejected and any
other string value is accepted verbatim (and re-emits the data request
with it). -/
theorem time_range_acceptance (v : String) (s : SectionState) :
    (∀ b ∈ toggleButtonValues, b ∈ timeRangeEnum) ∧
    handleTimeRangeChange none s = (s, []) ∧
    (handleTimeRangeChange (some v) s).1.timeRange = v ∧
    (handleTimeRangeChange (some v) s).2 =
      [SocketEmit.requestHistoricalData v] :=
  ⟨by decide, rfl, rfl, rfl⟩

/-- Witness for C4 (amended) at the concrete value `'7d'`. -/
theorem time_range_acceptance_witness :
    (handleTimeRangeChange (some "7d") (initialState emptyBundle 0)).1.timeRange
      = "7d" :=
  (time_range_acceptance "7d" (initialState emptyBundle 0)).2.2.1

/-- C9: `exportData` always clears the export-in-progress flag on
termination — on every path (invalid tab, missing token, fetch failure,
or completed download) the final state has `exportLoading = false`. -/
theorem export_clears_loading_flag (baseUrl timestamp : String)
    (store : List (String × String)) (response : HttpResponse)
    (s : SectionState) :
    (exportData baseUrl store response timestamp s).state.exportLoading = false := by
  cases he : endpointForTab s.activeTab with
  | none => simp [exportData, he]
  | some endpoint =>
    cases ht : getItem store "authToken" with
    | none => simp [exportData, he, ht]
    | some token =>
      by_cases hte : token = ""
      · simp [exportData, he, ht, hte]
      · by_cases hok : response.ok = true
        · simp [exportData, he, ht, hte, hok]
        · by_cases h401 : response.status = 401 <;>
            simp [exportData, he, ht, hte, hok, h401]

/-- Removing a key really leaves no entry under it. -/
theorem getItem_removeItem (store : List (String × String)) (key : String) :
    getItem (removeItem store key) key = none := by
  induction store with
  | nil => rfl
  | cons p rest ih =>
    by_cases hp : p.1 = key
    · have h1 : removeItem (p :: rest) key = removeItem rest key := by
        simp [removeItem, List.filter_cons, hp]
      rw [h1]
      exact ih
    · have h1 : removeItem (p :: rest) key = p :: removeItem rest key := by
        simp [removeItem, List.filter_cons, hp]
      have h2 : getItem (p :: removeItem rest key) key =
          getItem (removeItem rest key) key := by
        simp [getItem, List.find?_cons, hp]
      rw [h1, h2]
      exact ih

/-- C3 (counterexample): an `'authToken'` entry holding the empty string
exists in localStorage, yet `exportData` issues no request and raises
`'Authentication token not found'` — the claim promises a Bearer request
whenever a token entry exists. -/
theorem export_auth_counterexample :
    getItem [("authToken", "")] "authToken" = some "" ∧
    (exportData "http://10.10.1.25:3000" [("authToken", "")]
      ⟨true, 200, "OK"⟩ "20240101_000000" (initialState emptyBundle 0)).requests
      = [] ∧
    (exportData "http://10.10.1.25:3000" [("authToken", "")]
      ⟨true, 200, "OK"⟩ "20240101_000000" (initialState emptyBundle 0)).outcome
      = ExportOutcome.failed "Authentication token not found" :=
  ⟨rfl, rfl, rfl⟩

/-- C3 (amended): on a valid tab, whenever the `'authToken'` entry is
missing — or present but empty, which the falsy check treats the same —
`exportData` raises `'Authentication token not found'` and performs no
HTTP request; whenever a nonempty token is stored, the single request it
issues is a GET carrying `'Bearer <token>'` in the Authorization header
and targeting `<base>/api/export/<endpoint>?timeRange=<selected range>`. -/
theorem export_authentication (baseUrl timestamp : String)
    (store : List (String × String)) (response : HttpResponse)
    (s : SectionState) (hTab : s.activeTab < 3) :
    (getItem store "authToken" = none →
      (exportData baseUrl store response timestamp s).outcome =
        ExportOutcome.failed "Authentication token not found" ∧
      (exportData baseUrl store response timestamp s).requests = []) ∧
    (getItem store "authToken" = some "" →
      (exportData baseUrl store response timestamp s).outcome =
        ExportOutcome.failed "Authentication token not found" ∧
      (exportData baseUrl store response timestamp s).requests = []) ∧
    (∀ token endpoint, getItem store "authToken" = some token → token ≠ "" →
      endpointForTab s.activeTab = some endpoint →
      (exportData baseUrl store response timestamp s).requests =
        [{ method := "GET"
           requestUrl := baseUrl ++ "/api/export/" ++ endpoint ++
             "?timeRange=" ++ s.timeRange
           headers := [("Authorization", "Bearer " ++ token),
                       ("Cache-Control", "no-cache"),
                       ("Accept", "text/csv")] }]) := by
  have hend : ∃ e, endpointForTab s.activeTab = some e := by
    match hcase : s.activeTab, hTab with
    | 0, _ => exact ⟨"temperature", rfl⟩
    | 1, _ => exact ⟨"humidity", rfl⟩
    | 2, _ => exact ⟨"electrical", rfl⟩
  obtain ⟨e, he⟩ := hend
  refine ⟨?_, ?_, ?_⟩
  · intro hnone
    constructor <;> simp [exportData, he, hnone]
  · intro hempty
    constructor <;> simp [exportData, he, hempty]
  · intro token endpoint ht htne he2
    rw [he2] at he
    cases he
    simp only [exportData, he2, ht]
    rw [if_neg htne]
    by_cases hok : response.ok
    · simp [hok]
    · by_cases h401 : response.status = 401 <;> simp [hok, h401]

/-- Witness for C3 (amended): a missing token aborts with no request; a
stored nonempty token produces the single authenticated GET. -/
theorem export_authentication_witness :
    (exportData "http://10.10.1.25:3000" [] ⟨true, 200, "OK"⟩ "ts"
      (initialState emptyBundle 0)).requests = [] ∧
    (exportData "http://10.10.1.25:3000" [("authToken", "secret")]
      ⟨true, 200, "OK"⟩ "ts" (initialState emptyBundle 0)).requests =
      [{ method := "GET"
         requestUrl := "http://10.10.1.25:3000/api/export/temperature?timeRange=realtime"
         headers := [("Authorization", "Bearer secret"),
                     ("Cache-Control", "no-cache"),
                     ("Accept", "text/csv")] }] := by
  constructor
  · exact ((export_authentication "http://10.10.1.25:3000" "ts" []
      ⟨true, 200, "OK"⟩ (initialState emptyBundle 0) (by decide)).1 rfl).2
  · exact ((export_authentication "http://10.10.1.25:3000" "ts"
      [("authToken", "secret")] ⟨true, 200, "OK"⟩ (initialState emptyBundle 0)
      (by decide)).2.2 "secret" "temperature" rfl (by decide) rfl).trans (by decide)

/-- C6: on every non-ok response the export raises an error after its
single request (no retry); exactly in the status-401 case it removes
`'authToken'` from localStorage, reloads the page, and raises
`'Session expired. Please log in again.'`; every other non-ok status
raises `'Export failed: <statusText>'` and leaves the stored entries
untouched, with no reload. -/
theorem export_failure_handling (baseUrl timestamp token endpoint : String)
    (store : List (String × String)) (response : HttpResponse)
    (s : SectionState)
    (he : endpointForTab s.activeTab = some endpoint)
    (ht : getItem store "authToken" = some token) (htne : token ≠ "")
    (hnotok : response.ok = false) :
    (exportData baseUrl store response timestamp s).requests.length = 1 ∧
    (response.status = 401 →
      (exportData baseUrl store response timestamp s).store =
        removeItem store "authToken" ∧
      getItem (exportData baseUrl store response timestamp s).store "authToken"
        = none ∧
      (exportData baseUrl store response timestamp s).reloaded = true ∧
      (exportData baseUrl store response timestamp s).outcome =
        ExportOutcome.failed "Session expired. Please log in again.") ∧
    (response.status ≠ 401 →
      (exportData baseUrl store response timestamp s).store = store ∧
      (exportData baseUrl store response timestamp s).reloaded = false ∧
      (exportData baseUrl store response timestamp s).outcome =
        ExportOutcome.failed ("Export failed: " ++ response.statusText)) := by
  have hok : ¬ response.ok = true := by simp [hnotok]
  refine ⟨?_, ?_, ?_⟩
  · simp only [exportData, he, ht]
    rw [if_neg htne]
    by_cases h401 : response.status = 401 <;> simp [hok, h401]
  · intro h401
    simp only [exportData, he, ht]
    rw [if_neg htne]
    refine ⟨by simp [hok, h401], ?_, by simp [hok, h401], by simp [hok, h401]⟩
    simp [hok, h401, getItem_removeItem]
  · intro h401
    simp only [exportData, he, ht]
    rw [if_neg htne]
    exact ⟨by simp [hok, h401], by simp [hok, h401], by simp [hok, h401]⟩

/-- Witness for C6: a concrete 401 response (token removed, reload,
session-expired message) and a concrete 500 response (token kept,
statusText message). -/
theorem export_failure_handling_witness :
    (exportData "b" [("authToken", "tok")] ⟨false, 401, "Unauthorized"⟩ "ts"
      (initialState emptyBundle 0)).outcome =
      ExportOutcome.failed "Session expired. Please log in again." ∧
    (exportData "b" [("authToken", "tok")] ⟨false, 401, "Unauthorized"⟩ "ts"
      (initialState emptyBundle 0)).reloaded = true ∧
    getItem (exportData "b" [("authToken", "tok")] ⟨false, 401, "Unauthorized"⟩
      "ts" (initialState emptyBundle 0)).store "authToken" = none ∧
    (exportData "b" [("authToken", "tok")] ⟨false, 500, "Internal Server Error"⟩
      "ts" (initialState emptyBundle 0)).outcome =
      ExportOutcome.failed "Export failed: Internal Server Error" ∧
    (exportData "b" [("authToken", "tok")] ⟨false, 500, "Internal Server Error"⟩
      "ts" (initialState emptyBundle 0)).store = [("authToken", "tok")] := by
  have h401 := export_failure_handling "b" "ts" "tok" "temperature"
    [("authToken", "tok")] ⟨false, 401, "Unauthorized"⟩ (initialState emptyBundle 0)
    rfl rfl (by decide) rfl
  have h500 := export_failure_handling "b" "ts" "tok" "temperature"
    [("authToken", "tok")] ⟨false, 500, "Internal Server Error"⟩
    (initialState emptyBundle 0) rfl rfl (by decide) rfl
  exact ⟨(h401.2.1 rfl).2.2.2, (h401.2.1 rfl).2.2.1, (h401.2.1 rfl).2.1,
    (h500.2.2 (by decide)).2.2, (h500.2.2 (by decide)).1⟩

/-- One `{name, value}` segment of the gauge pie data. -/
structure GaugeSegment where
  name : String
  value : ℚ
deriving DecidableEq, Repr

/-- The fill percentage computed by `GaugeChart` (lines 30-32):
`range = max - min`,
`normalizedValue = Math.max(Math.min(value, max), min) - min`,
`percentage = (normalizedValue / range) * 100`. -/
def gaugePercentage (value min max : ℚ) : ℚ :=
  let range := max - min
  let normalizedValue := Max.max (Min.min value max) min - min
  normalizedValue / range * 100

/-- The two value-gauge segments of `GaugeChart` (lines 35-38):
`[{name: 'Value', value: percentage}, {name: 'Empty', value: 100 - percentage}]`. -/
def gaugeData (value min max : ℚ) : List GaugeSegment :=
  [{ name := "Value", value := gaugePercentage value min max },
   { name := "Empty", value := 100 - gaugePercentage value min max }]

/-- C10: for every input value and every `min < max`, the computed fill
percentage lies in `[0, 100]`, and the `'Value'` and `'Empty'` segments
sum to exactly `100`. -/
theorem gauge_percentage_clamped (value min max : ℚ) (h : min < max) :
    0 ≤ gaugePercentage value min max ∧
    gaugePercentage value min max ≤ 100 ∧
    ((gaugeData value min max).map GaugeSegment.value).sum = 100 := by
  have hr : (0 : ℚ) < max - min := by linarith
  have h1 : min ≤ Max.max (Min.min value max) min := le_max_right _ _
  have h2 : Max.max (Min.min value max) min ≤ max :=
    max_le (le_trans (min_le_right _ _) (le_refl _)) (le_of_lt h)
  have hfrac0 : 0 ≤ (Max.max (Min.min value max) min - min) / (max - min) :=
    div_nonneg (by linarith) (le_of_lt hr)
  have hfrac1 : (Max.max (Min.min value max) min - min) / (max - min) ≤ 1 :=
    (div_le_one hr).mpr (by linarith)
  refine ⟨?_, ?_, ?_⟩
  · have := mul_nonneg hfrac0 (by norm_num : (0 : ℚ) ≤ 100)
    simpa [gaugePercentage] using this
  · have := mul_le_mul_of_nonneg_right hfrac1 (by norm_num : (0 : ℚ) ≤ 100)
    rw [one_mul] at this
    simpa [gaugePercentage] using this
  · simp [gaugeData]

/-- Witness for C10: a value above the configured range is clamped. -/
theorem gauge_percentage_clamped_witness :
    0 ≤ gaugePercentage 150 0 100 ∧ gaugePercentage 150 0 100 ≤ 100 ∧
    ((gaugeData 150 0 100).map GaugeSegment.value).sum = 100 :=
  gauge_percentage_clamped 150 0 100 (by norm_num)

end H4
